import Mathlib

/-!
Verification of the subscription-platform data model.

The Lean definitions below embed the entity schemas declared in
src/SMA/core/models.py (the canonical, richer schema; src/models.py is an
earlier draft of the same domain model).  Django field types are mapped as
follows: CharField/TextField/SlugField/URLField/EmailField to String,
DecimalField to Rat, PositiveIntegerField to Nat, IntegerField to Int,
BooleanField to Bool, DateField/DateTimeField to Nat (abstract instants),
nullable fields to Option, ForeignKey to Nat row ids, JSONField to String
(opaque payload), ManyToManyField to List Nat.

The repository itself is a passive schema: the create/update operations the
specification describes (subscription lifecycle, charge recording, coupon
application, payout dispatch, webhook processing, invoice generation) are not
implemented under src/.  Those operations are therefore modelled from the
specification text, each marked with a doc comment starting with
"Modelled from the spec:".  Everything else (field inventories, defaults,
uniqueness declarations, the slug-assigning save methods) is translated
directly from the source.
-/

namespace SMA

/-- Subscription.Status choices (src/SMA/core/models.py lines 221-225). -/
inductive SubscriptionStatus
  | active
  | paused
  | canceled
  | expired
deriving DecidableEq, Repr

/-- PaymentTransaction.Types choices (src/SMA/core/models.py lines 398-401). -/
inductive TransactionType
  | charge
  | transfer
  | refund
deriving DecidableEq, Repr

/-- Invoice.Status choices (src/SMA/core/models.py lines 423-428). -/
inductive InvoiceStatus
  | draft
  | sent
  | paid
  | overdue
  | canceled
deriving DecidableEq, Repr

/-- PaystackWebhook.Status choices (src/SMA/core/models.py lines 455-458). -/
inductive WebhookStatus
  | pending
  | processed
  | failed
deriving DecidableEq, Repr

/-- Coupon.DiscountType choices (src/SMA/core/models.py lines 479-481). -/
inductive DiscountType
  | percentage
  | fixed
deriving DecidableEq, Repr

/-- Payout.Status choices (src/SMA/core/models.py lines 619-622). -/
inductive PayoutStatus
  | pending
  | paid
  | failed
deriving DecidableEq, Repr

/-- Error taxonomy of the specification (section 7): unique-constraint
violations, protected foreign keys, out-of-range values, expired coupons and
exhausted usage caps, plus the DuplicateReference rejection of replayed
charge references (section 4.2). -/
inductive PlatformError
  | DuplicateError
  | DuplicateReference
  | ReferentialIntegrityError
  | ValidationError
  | ExpiredError
  | LimitExceededError
deriving DecidableEq, Repr

/-- PlatformSettings (src/SMA/core/models.py lines 95-104): singleton for
global billing, retry logic, templates and taxes. -/
structure PlatformSettings where
  created_at : Nat
  updated_at : Nat
  default_tax_rate : Rat
  retry_attempts : Nat
  grace_period_days : Nat
  invoice_template : String
  email_reminder_template : String
deriving DecidableEq, Repr

/-- Organization (src/SMA/core/models.py lines 49-66); inherits
TimeStampedModel and SoftDeleteModel.  The members many-to-many lives in the
OrganizationMembership through-table and is not a column of this row. -/
structure Organization where
  created_at : Nat
  updated_at : Nat
  is_active : Bool
  deleted_at : Option Nat
  name : String
  slug : String
  description : String
  contact_email : String
  contact_phone : String
deriving DecidableEq, Repr

/-- ServicePlan (src/SMA/core/models.py lines 162-192). -/
structure ServicePlan where
  created_at : Nat
  updated_at : Nat
  is_active : Bool
  deleted_at : Option Nat
  provider : Nat
  name : String
  slug : String
  description : String
  price : Rat
  currency : String
  billing_interval : String
  duration : Nat
  trial_period_days : Nat
  featured : Bool
  category : String
  max_seats : Option Nat
  min_subscription_duration : Option Nat
  paystack_plan_id : String
deriving DecidableEq, Repr

/-- Event (src/SMA/core/models.py lines 280-315). -/
structure Event where
  created_at : Nat
  updated_at : Nat
  is_active : Bool
  deleted_at : Option Nat
  provider : Nat
  name : String
  slug : String
  description : String
  image : Option String
  location_name : String
  address : String
  city : String
  state : String
  country : String
  latitude : Option Rat
  longitude : Option Rat
  is_online : Bool
  online_url : String
  start_time : Nat
  end_time : Nat
  is_recurring : Bool
  recurrence_rule : String
  capacity : Nat
  min_age : Option Nat
  max_age : Option Nat
deriving DecidableEq, Repr

/-- Bundle (src/SMA/core/models.py lines 506-526). -/
structure Bundle where
  created_at : Nat
  updated_at : Nat
  is_active : Bool
  deleted_at : Option Nat
  name : String
  slug : String
  description : String
  plans : List Nat
  events : List Nat
  price : Rat
  currency : String
  max_redemptions : Option Nat
  times_redeemed : Nat
deriving DecidableEq, Repr

/-- Subscription (src/SMA/core/models.py lines 219-255); unique together on
(subscriber, plan). -/
structure Subscription where
  created_at : Nat
  updated_at : Nat
  is_active : Bool
  deleted_at : Option Nat
  subscriber : Nat
  plan : Nat
  status : SubscriptionStatus
  start_date : Nat
  current_period_start : Option Nat
  current_period_end : Option Nat
  end_date : Option Nat
  auto_renew : Bool
  paystack_subscription_id : Option String
  quantity : Nat
  cancel_at_period_end : Bool
  canceled_at : Option Nat
  paused_at : Option Nat
  resumed_at : Option Nat
  latest_invoice_id : Option String
  metadata : Option String
deriving DecidableEq, Repr

/-- PaymentTransaction (src/SMA/core/models.py lines 396-418); reference is
declared unique (line 409). -/
structure PaymentTransaction where
  created_at : Nat
  updated_at : Nat
  user : Nat
  event : Option Nat
  subscription : Option Nat
  ticket : Option Nat
  amount : Rat
  currency : String
  reference : String
  status : String
  transaction_type : TransactionType
  metadata : Option String
  ip_address : Option String
  user_agent : String
  raw_response : Option String
deriving DecidableEq, Repr

/-- Invoice (src/SMA/core/models.py lines 421-447); invoice_number unique,
payment a nullable OneToOneField to PaymentTransaction (line 433). -/
structure Invoice where
  created_at : Nat
  updated_at : Nat
  invoice_number : String
  user : Nat
  subscription : Option Nat
  payment : Option Nat
  issue_date : Nat
  due_date : Option Nat
  status : InvoiceStatus
  subtotal : Rat
  tax_amount : Rat
  total_amount : Rat
  pdf : String
  metadata : Option String
deriving DecidableEq, Repr

/-- PaystackWebhook (src/SMA/core/models.py lines 453-469): raw gateway
events with processing status. -/
structure PaystackWebhook where
  created_at : Nat
  updated_at : Nat
  event : String
  payload : String
  status : WebhookStatus
  processed : Bool
  processed_at : Option Nat
deriving DecidableEq, Repr

/-- Coupon (src/SMA/core/models.py lines 477-500). -/
structure Coupon where
  created_at : Nat
  updated_at : Nat
  is_active : Bool
  deleted_at : Option Nat
  code : String
  name : String
  description : String
  discount_type : DiscountType
  value : Rat
  min_purchase_amount : Rat
  usage_limit : Option Nat
  times_redeemed : Nat
  expires_at : Option Nat
  applicable_plans : List Nat
  applicable_events : List Nat
  metadata : Option String
deriving DecidableEq, Repr

/-- Payout (src/SMA/core/models.py lines 617-645). -/
structure Payout where
  created_at : Nat
  updated_at : Nat
  provider : Nat
  amount : Rat
  currency : String
  paystack_transfer_id : String
  scheduled_for : Nat
  processed_at : Option Nat
  status : PayoutStatus
  attempts : Nat
  last_error : String
  processed_by : Option Nat
  metadata : Option String
deriving DecidableEq, Repr

/-! Slug-assigning save methods, translated directly from the source.  Each
reads: if the slug is blank (Python falsy, i.e. the empty string), set it to
slugify(name); then persist.  The Django slugify helper is library code, so it
is taken as an abstract String function parameter. -/

/-- Organization.save (src/SMA/core/models.py lines 58-61). -/
def Organization.save (slugify : String → String) (o : Organization) : Organization :=
  if o.slug = "" then { o with slug := slugify o.name } else o

/-- ServicePlan.save (src/SMA/core/models.py lines 183-186). -/
def ServicePlan.save (slugify : String → String) (p : ServicePlan) : ServicePlan :=
  if p.slug = "" then { p with slug := slugify p.name } else p

/-- Event.save (src/SMA/core/models.py lines 306-309). -/
def Event.save (slugify : String → String) (e : Event) : Event :=
  if e.slug = "" then { e with slug := slugify e.name } else e

/-- Bundle.save (src/SMA/core/models.py lines 518-521). -/
def Bundle.save (slugify : String → String) (b : Bundle) : Bundle :=
  if b.slug = "" then { b with slug := slugify b.name } else b

/-! Ledger and lifecycle operations.  The repository declares only the schema;
the operations below are modelled from the specification (sections 4.1-4.4 and
7), with field defaults taken from the schema declarations. -/

/-- Modelled from the spec: recording a charge appends a PaymentTransaction
to the ledger; a replay whose reference equals the reference of an
already-recorded row is rejected with DuplicateReference (section 4.2), which
is how the storage layer enforces the unique reference declared at
src/SMA/core/models.py line 409. -/
def recordCharge (store : List PaymentTransaction) (tx : PaymentTransaction) :
    Except PlatformError (List PaymentTransaction) :=
  if store.any (fun t => decide (t.reference = tx.reference)) then
    Except.error PlatformError.DuplicateReference
  else
    Except.ok (tx :: store)

/-- The ledger invariant of claim C1: references are pairwise distinct. -/
def uniqueReferences (store : List PaymentTransaction) : Prop :=
  store.Pairwise (fun a b => a.reference ≠ b.reference)

/-- A fresh Subscription row with the schema defaults of
src/SMA/core/models.py lines 219-248: status active, auto_renew true,
quantity 1, cancel_at_period_end false, nullable fields unset, soft-delete
flags at their defaults; start_date is auto-set to the creation instant. -/
def mkSubscription (subscriber plan now : Nat) : Subscription :=
  { created_at := now
    updated_at := now
    is_active := true
    deleted_at := none
    subscriber := subscriber
    plan := plan
    status := SubscriptionStatus.active
    start_date := now
    current_period_start := none
    current_period_end := none
    end_date := none
    auto_renew := true
    paystack_subscription_id := none
    quantity := 1
    cancel_at_period_end := false
    canceled_at := none
    paused_at := none
    resumed_at := none
    latest_invoice_id := none
    metadata := none }

/-- Modelled from the spec: create(subscriber, plan) fails with
DuplicateError if a Subscription for the (subscriber, plan) pair exists and
otherwise creates one with status active and start_date now (section 4.1);
the pair uniqueness is declared at src/SMA/core/models.py line 251. -/
def createSubscription (store : List Subscription) (subscriber plan now : Nat) :
    Except PlatformError (List Subscription) :=
  if store.any (fun s => decide (s.subscriber = subscriber ∧ s.plan = plan)) then
    Except.error PlatformError.DuplicateError
  else
    Except.ok (mkSubscription subscriber plan now :: store)

/-- The store invariant of claim C2: (subscriber, plan) pairs are pairwise
distinct. -/
def uniquePairs (store : List Subscription) : Prop :=
  store.Pairwise (fun a b => (a.subscriber, a.plan) ≠ (b.subscriber, b.plan))

/-- Modelled from the spec: pause(subscription) requires status active and
sets status paused and paused_at now (section 4.1). -/
def pauseSubscription (s : Subscription) (now : Nat) :
    Except PlatformError Subscription :=
  if s.status = SubscriptionStatus.active then
    Except.ok { s with status := SubscriptionStatus.paused, paused_at := some now }
  else
    Except.error PlatformError.ValidationError

/-- Modelled from the spec: resume(subscription) requires status paused and
sets status active and resumed_at now (section 4.1). -/
def resumeSubscription (s : Subscription) (now : Nat) :
    Except PlatformError Subscription :=
  if s.status = SubscriptionStatus.paused then
    Except.ok { s with status := SubscriptionStatus.active, resumed_at := some now }
  else
    Except.error PlatformError.ValidationError

/-- Modelled from the spec: cancel(subscription, at_period_end): with
at_period_end true it sets cancel_at_period_end and leaves status unchanged
until the period boundary; otherwise it sets status canceled and canceled_at
now immediately (section 4.1). -/
def cancelSubscription (s : Subscription) (at_period_end : Bool) (now : Nat) :
    Subscription :=
  if at_period_end then
    { s with cancel_at_period_end := true }
  else
    { s with status := SubscriptionStatus.canceled, canceled_at := some now }

/-- Whether the current billing period of a subscription has passed at the
given instant. -/
def periodEnded (s : Subscription) (now : Nat) : Bool :=
  match s.current_period_end with
  | some t => decide (t < now)
  | none => false

/-- Modelled from the spec: expire(subscription) is the system-driven
transition applicable when current_period_end has passed and auto_renew is
false; it sets status expired (section 4.1). -/
def expireSubscription (s : Subscription) (now : Nat) :
    Except PlatformError Subscription :=
  if !s.auto_renew && periodEnded s now then
    Except.ok { s with status := SubscriptionStatus.expired }
  else
    Except.error PlatformError.ValidationError

/-- Modelled from the spec: renewal moves the current billing period; the
data-model invariant current_period_start ≤ current_period_end when both are
present (section 3) obliges the writer to reject a violating pair, surfaced
as a ValidationError (section 7). -/
def setCurrentPeriod (s : Subscription) (ps pe : Nat) :
    Except PlatformError Subscription :=
  if ps ≤ pe then
    Except.ok { s with current_period_start := some ps, current_period_end := some pe }
  else
    Except.error PlatformError.ValidationError

/-- The ordering invariant of claim C8, stated on one row: whenever both
period endpoints are present, the start is not after the end. -/
def periodOrdered (s : Subscription) : Prop :=
  match s.current_period_start, s.current_period_end with
  | some a, some b => a ≤ b
  | _, _ => True

/-- Modelled from the spec: invoice generation computes subtotal, tax and
total from the platform default_tax_rate (a percentage, PlatformSettings at
src/SMA/core/models.py lines 97-100) and persists an Invoice whose remaining
fields carry the schema defaults of lines 421-441 (status draft, amounts
otherwise zero-initialised, empty pdf). -/
def generateInvoice (settings : PlatformSettings) (invoice_number : String)
    (user : Nat) (subscription payment : Option Nat) (subtotal : Rat)
    (now : Nat) : Invoice :=
  let tax := subtotal * settings.default_tax_rate / 100
  { created_at := now
    updated_at := now
    invoice_number := invoice_number
    user := user
    subscription := subscription
    payment := payment
    issue_date := now
    due_date := none
    status := InvoiceStatus.draft
    subtotal := subtotal
    tax_amount := tax
    total_amount := subtotal + tax
    pdf := ""
    metadata := none }

/-- Modelled from the spec: persisting an Invoice that points at a
PaymentTransaction already referenced by a stored Invoice is rejected, which
is how the storage layer enforces the one-to-one payment link declared at
src/SMA/core/models.py line 433 (unique-constraint violations surface as
DuplicateError, section 7).  Invoices with no payment link are unconstrained
by it. -/
def insertInvoice (store : List Invoice) (inv : Invoice) :
    Except PlatformError (List Invoice) :=
  match inv.payment with
  | some p =>
      if store.any (fun i => decide (i.payment = some p)) then
        Except.error PlatformError.DuplicateError
      else
        Except.ok (inv :: store)
  | none => Except.ok (inv :: store)

/-- The store invariant of claim C9: no two stored Invoices point at the same
PaymentTransaction. -/
def paymentLinkUnique (store : List Invoice) : Prop :=
  store.Pairwise (fun a b => ∀ p, a.payment = some p → b.payment ≠ some p)

/-- Modelled from the spec: webhook processing sets processed true,
processed_at now, and status processed or failed according to the outcome
(section 4.2); no other column of the row is interpreted or rewritten. -/
def processWebhook (w : PaystackWebhook) (success : Bool) (now : Nat) :
    PaystackWebhook :=
  { w with
    processed := true
    processed_at := some now
    status := if success then WebhookStatus.processed else WebhookStatus.failed }

/-- Whether a coupon has expired at the given instant. -/
def couponExpired (c : Coupon) (now : Nat) : Bool :=
  match c.expires_at with
  | some t => decide (t < now)
  | none => false

/-- Whether a coupon's usage cap has been reached (never, when no limit is
set). -/
def limitReached (c : Coupon) : Bool :=
  match c.usage_limit with
  | some l => decide (l ≤ c.times_redeemed)
  | none => false

/-- The discount a coupon grants on a purchase amount, per its
discount_type: a percentage of the amount, or the fixed value. -/
def couponDiscount (c : Coupon) (amount : Rat) : Rat :=
  match c.discount_type with
  | DiscountType.percentage => amount * c.value / 100
  | DiscountType.fixed => c.value

/-- Modelled from the spec: applying a coupon to a purchase fails with
ExpiredError if expires_at has passed, then fails with LimitExceededError if
times_redeemed has reached usage_limit, and otherwise increments
times_redeemed and computes the discount per discount_type (section 4.4). -/
def applyCoupon (c : Coupon) (amount : Rat) (now : Nat) :
    Except PlatformError (Coupon × Rat) :=
  if couponExpired c now then
    Except.error PlatformError.ExpiredError
  else if limitReached c then
    Except.error PlatformError.LimitExceededError
  else
    Except.ok ({ c with times_redeemed := c.times_redeemed + 1 }, couponDiscount c amount)

/-- The coupon state after one application attempt: the updated coupon on
success, the unchanged coupon when the attempt was rejected. -/
def applyCouponKeep (c : Coupon) (amount : Rat) (now : Nat) : Coupon :=
  match applyCoupon c amount now with
  | Except.ok (c2, _) => c2
  | Except.error _ => c

/-- The coupon state after a sequence of application attempts, each given by
a purchase amount and an instant. -/
def applySequence (c : Coupon) (apps : List (Rat × Nat)) : Coupon :=
  apps.foldl (fun c1 p => applyCouponKeep c1 p.1 p.2) c

/-- The outcome the payment gateway reports for one payout dispatch: success
at an instant acted by a user, or failure with an error message. -/
inductive DispatchOutcome
  | success (now : Nat) (byUser : Nat)
  | failure (err : String)
deriving DecidableEq, Repr

/-- Modelled from the spec: dispatching a pending Payout increments attempts;
success sets status paid, processed_at and processed_by; failure records
last_error and leaves status pending for retry until the platform
retry_attempts cap has been reached, after which status becomes failed
terminally (section 4.3).  A payout that is not pending is not dispatched. -/
def dispatchPayout (settings : PlatformSettings) (p : Payout)
    (outcome : DispatchOutcome) : Payout :=
  if p.status = PayoutStatus.pending then
    match outcome with
    | DispatchOutcome.success now byUser =>
        { p with
          attempts := p.attempts + 1
          status := PayoutStatus.paid
          processed_at := some now
          processed_by := some byUser }
    | DispatchOutcome.failure err =>
        if settings.retry_attempts ≤ p.attempts then
          { p with
            attempts := p.attempts + 1
            status := PayoutStatus.failed
            last_error := err }
        else
          { p with
            attempts := p.attempts + 1
            last_error := err }
  else p

/-! Concrete sample rows, used to evaluate the theorems below on explicit
inputs. -/

/-- A charge row with the given gateway reference and otherwise plain
values. -/
def mkTx (ref : String) : PaymentTransaction :=
  { created_at := 0
    updated_at := 0
    user := 1
    event := none
    subscription := none
    ticket := none
    amount := 10
    currency := "NGN"
    reference := ref
    status := "success"
    transaction_type := TransactionType.charge
    metadata := none
    ip_address := none
    user_agent := ""
    raw_response := none }

/-- Platform settings with the schema defaults of src/SMA/core/models.py
lines 97-104: tax rate 0 (here 5 percent to exercise the tax computation),
retry_attempts 3, grace_period_days 7. -/
def settingsEx : PlatformSettings :=
  { created_at := 0
    updated_at := 0
    default_tax_rate := 5
    retry_attempts := 3
    grace_period_days := 7
    invoice_template := ""
    email_reminder_template := "" }

/-- A coupon template with the given usage cap, redemption count and
expiry. -/
def mkCoupon (limit : Option Nat) (redeemed : Nat) (expiry : Option Nat) : Coupon :=
  { created_at := 0
    updated_at := 0
    is_active := true
    deleted_at := none
    code := "SAVE5"
    name := ""
    description := ""
    discount_type := DiscountType.fixed
    value := 5
    min_purchase_amount := 0
    usage_limit := limit
    times_redeemed := redeemed
    expires_at := expiry
    applicable_plans := []
    applicable_events := []
    metadata := none }

/-- The scenario coupon of the specification: usage_limit 5, times_redeemed
5, not expired. -/
def atLimitCoupon : Coupon := mkCoupon (some 5) 5 none

/-- A coupon at its usage cap that has also expired (expiry instant 0). -/
def expiredAtLimitCoupon : Coupon := mkCoupon (some 5) 5 (some 0)

/-- An unredeemed coupon with usage_limit 5. -/
def freshCoupon : Coupon := mkCoupon (some 5) 0 none

/-- The scenario payout of the specification: pending with attempts 3. -/
def payoutEx : Payout :=
  { created_at := 0
    updated_at := 0
    provider := 1
    amount := 100
    currency := "NGN"
    paystack_transfer_id := "tr1"
    scheduled_for := 0
    processed_at := none
    status := PayoutStatus.pending
    attempts := 3
    last_error := ""
    processed_by := none
    metadata := none }

/-- A webhook row as recorded at ingestion: pending and unprocessed. -/
def webhookEx : PaystackWebhook :=
  { created_at := 0
    updated_at := 0
    event := "charge.success"
    payload := "\x7b\x22amount\x22:100\x7d"
    status := WebhookStatus.pending
    processed := false
    processed_at := none }

/-- Invoices pointing at payment rows 1, 1 again, and 2. -/
def invP1 : Invoice := generateInvoice settingsEx "INV-1" 1 none (some 1) 100 0

/-- A second invoice pointing at the same payment row as invP1. -/
def invP1b : Invoice := generateInvoice settingsEx "INV-2" 1 none (some 1) 50 0

/-- An invoice pointing at a different payment row. -/
def invP2 : Invoice := generateInvoice settingsEx "INV-3" 1 none (some 2) 75 0

/-- An organization with the given name and slug and otherwise plain
values. -/
def mkOrganization (name slug : String) : Organization :=
  { created_at := 0
    updated_at := 0
    is_active := true
    deleted_at := none
    name := name
    slug := slug
    description := ""
    contact_email := ""
    contact_phone := "" }

/-- A service plan with the given name and slug and otherwise plain
values. -/
def mkServicePlan (name slug : String) : ServicePlan :=
  { created_at := 0
    updated_at := 0
    is_active := true
    deleted_at := none
    provider := 1
    name := name
    slug := slug
    description := ""
    price := 10
    currency := "NGN"
    billing_interval := "monthly"
    duration := 30
    trial_period_days := 0
    featured := false
    category := ""
    max_seats := none
    min_subscription_duration := none
    paystack_plan_id := "pl1" }

/-- An event with the given name and slug and otherwise plain values. -/
def mkEvent (name slug : String) : Event :=
  { created_at := 0
    updated_at := 0
    is_active := true
    deleted_at := none
    provider := 1
    name := name
    slug := slug
    description := ""
    image := none
    location_name := ""
    address := ""
    city := ""
    state := ""
    country := ""
    latitude := none
    longitude := none
    is_online := false
    online_url := ""
    start_time := 0
    end_time := 1
    is_recurring := false
    recurrence_rule := ""
    capacity := 10
    min_age := none
    max_age := none }

/-- A bundle with the given name and slug and otherwise plain values. -/
def mkBundle (name slug : String) : Bundle :=
  { created_at := 0
    updated_at := 0
    is_active := true
    deleted_at := none
    name := name
    slug := slug
    description := ""
    plans := []
    events := []
    price := 20
    currency := "NGN"
    max_redemptions := none
    times_redeemed := 0 }

/-! Theorems. -/

/-- Claim C1: the reference field is unique across all PaymentTransaction
rows; recording a charge whose reference equals the reference of an
already-recorded row fails with DuplicateReference and adds no row, while a
charge with a fresh reference is appended and keeps the references pairwise
distinct. -/
theorem recordCharge_duplicate_reference_rejected
    (store : List PaymentTransaction) (tx : PaymentTransaction)
    (h : uniqueReferences store) :
    ((∃ t ∈ store, t.reference = tx.reference) →
      recordCharge store tx = Except.error PlatformError.DuplicateReference) ∧
    ((∀ t ∈ store, t.reference ≠ tx.reference) →
      recordCharge store tx = Except.ok (tx :: store) ∧
        uniqueReferences (tx :: store)) := by
  constructor
  · rintro ⟨t, ht, hr⟩
    have hany : store.any (fun t => decide (t.reference = tx.reference)) = true := by
      rw [List.any_eq_true]
      exact ⟨t, ht, by simpa using hr⟩
    simp [recordCharge, hany]
  · intro hall
    have hany : store.any (fun t => decide (t.reference = tx.reference)) = false := by
      rw [List.any_eq_false]
      intro t ht
      simpa using hall t ht
    refine ⟨by simp [recordCharge, hany], ?_⟩
    exact List.pairwise_cons.mpr ⟨fun t ht => (hall t ht).symm, h⟩

/-- Witness for claim C1: in a ledger holding the charge with reference r1,
replaying reference r1 is rejected with DuplicateReference and recording
reference r2 succeeds. -/
theorem recordCharge_duplicate_reference_rejected_witness :
    recordCharge [mkTx "r1"] (mkTx "r1") =
      Except.error PlatformError.DuplicateReference ∧
    recordCharge [mkTx "r1"] (mkTx "r2") = Except.ok [mkTx "r2", mkTx "r1"] := by
  constructor
  · exact (recordCharge_duplicate_reference_rejected [mkTx "r1"] (mkTx "r1")
      (by simp [uniqueReferences])).1 ⟨mkTx "r1", by simp, rfl⟩
  · exact ((recordCharge_duplicate_reference_rejected [mkTx "r1"] (mkTx "r2")
      (by simp [uniqueReferences])).2
      (by intro t ht; simp at ht; subst ht; simp [mkTx])).1

/-- Claim C3: every Invoice produced by the invoice-generation operation,
with tax computed from the platform default_tax_rate, satisfies
total_amount = subtotal + tax_amount. -/
theorem generateInvoice_total_eq
    (settings : PlatformSettings) (n : String) (user : Nat)
    (subscription payment : Option Nat) (subtotal : Rat) (now : Nat) :
    (generateInvoice settings n user subscription payment subtotal now).total_amount =
      (generateInvoice settings n user subscription payment subtotal now).subtotal +
      (generateInvoice settings n user subscription payment subtotal now).tax_amount := rfl

/-- Claim C6: processing a PaystackWebhook row sets processed true,
processed_at to the processing instant, and status to processed or failed,
while the payload, event name and ingestion timestamps are exactly the ones
recorded at ingestion. -/
theorem processWebhook_frame (w : PaystackWebhook) (success : Bool) (now : Nat) :
    (processWebhook w success now).payload = w.payload ∧
    (processWebhook w success now).event = w.event ∧
    (processWebhook w success now).created_at = w.created_at ∧
    (processWebhook w success now).updated_at = w.updated_at ∧
    (processWebhook w success now).processed = true ∧
    (processWebhook w success now).processed_at = some now ∧
    ((processWebhook w success now).status = WebhookStatus.processed ∨
      (processWebhook w success now).status = WebhookStatus.failed) := by
  refine ⟨rfl, rfl, rfl, rfl, rfl, rfl, ?_⟩
  cases success
  · exact Or.inr rfl
  · exact Or.inl rfl

/-- Claim C7: cancel with at_period_end true sets cancel_at_period_end and
leaves status (and canceled_at) unchanged; cancel with at_period_end false
sets status canceled and canceled_at to the cancellation instant. -/
theorem cancelSubscription_spec (s : Subscription) (now : Nat) :
    (cancelSubscription s true now).cancel_at_period_end = true ∧
    (cancelSubscription s true now).status = s.status ∧
    (cancelSubscription s true now).canceled_at = s.canceled_at ∧
    (cancelSubscription s false now).status = SubscriptionStatus.canceled ∧
    (cancelSubscription s false now).canceled_at = some now :=
  ⟨rfl, rfl, rfl, rfl, rfl⟩

/-- Claim C2: no two Subscription rows share a (subscriber, plan) pair;
create fails with DuplicateError when the pair already exists and otherwise
creates a row with status active and start_date now, keeping the pairs
pairwise distinct. -/
theorem createSubscription_unique_pair
    (store : List Subscription) (subscriber plan now : Nat)
    (h : uniquePairs store) :
    ((∃ s ∈ store, s.subscriber = subscriber ∧ s.plan = plan) →
      createSubscription store subscriber plan now =
        Except.error PlatformError.DuplicateError) ∧
    ((∀ s ∈ store, ¬(s.subscriber = subscriber ∧ s.plan = plan)) →
      createSubscription store subscriber plan now =
        Except.ok (mkSubscription subscriber plan now :: store) ∧
      (mkSubscription subscriber plan now).status = SubscriptionStatus.active ∧
      (mkSubscription subscriber plan now).start_date = now ∧
      uniquePairs (mkSubscription subscriber plan now :: store)) := by
  constructor
  · rintro ⟨s, hs, hp⟩
    have hany :
        store.any (fun s => decide (s.subscriber = subscriber ∧ s.plan = plan)) = true := by
      rw [List.any_eq_true]
      exact ⟨s, hs, by simpa using hp⟩
    simp [createSubscription, hany]
    exact ⟨s, hs, hp⟩
  · intro hall
    have hany :
        store.any (fun s => decide (s.subscriber = subscriber ∧ s.plan = plan)) = false := by
      rw [List.any_eq_false]
      intro s hs
      simpa using hall s hs
    refine ⟨by
      simp [createSubscription, hany]
      intro x hx h1 h2
      exact hall x hx ⟨h1, h2⟩, rfl, rfl, ?_⟩
    refine List.pairwise_cons.mpr ⟨fun s hs => ?_, h⟩
    have := hall s hs
    simp only [mkSubscription, Ne, Prod.mk.injEq, not_and]
    intro h1 h2
    exact this ⟨h1.symm, h2.symm⟩

/-- Witness for claim C2: with a subscription for (subscriber 42, plan 7)
stored, creating the same pair again fails with DuplicateError, and creating
(subscriber 43, plan 7) succeeds with an active row. -/
theorem createSubscription_unique_pair_witness :
    createSubscription [mkSubscription 42 7 0] 42 7 1 =
      Except.error PlatformError.DuplicateError ∧
    (createSubscription [mkSubscription 42 7 0] 43 7 1 =
      Except.ok [mkSubscription 43 7 1, mkSubscription 42 7 0] ∧
     (mkSubscription 43 7 1).status = SubscriptionStatus.active) := by
  constructor
  · exact (createSubscription_unique_pair [mkSubscription 42 7 0] 42 7 1
      (by simp [uniquePairs])).1 ⟨mkSubscription 42 7 0, by simp, rfl, rfl⟩
  · have h := (createSubscription_unique_pair [mkSubscription 42 7 0] 43 7 1
      (by simp [uniquePairs])).2
      (by intro s hs; simp at hs; subst hs; simp [mkSubscription])
    exact ⟨h.1, h.2.1⟩

/-- Claim C9: the Invoice to PaymentTransaction link is one-to-one; in any
store where no two invoices share a payment, inserting an Invoice pointing
at an already-referenced PaymentTransaction fails with DuplicateError and
adds no row, while any other insertion succeeds and preserves the
one-to-one property. -/
theorem insertInvoice_one_to_one
    (store : List Invoice) (inv : Invoice)
    (h : paymentLinkUnique store) :
    (∀ p, inv.payment = some p → (∃ i ∈ store, i.payment = some p) →
      insertInvoice store inv = Except.error PlatformError.DuplicateError) ∧
    ((∀ i ∈ store, ∀ p, inv.payment = some p → i.payment ≠ some p) →
      insertInvoice store inv = Except.ok (inv :: store) ∧
        paymentLinkUnique (inv :: store)) := by
  constructor
  · rintro p hp ⟨i, hi, hip⟩
    have hany : store.any (fun i => decide (i.payment = some p)) = true := by
      rw [List.any_eq_true]
      exact ⟨i, hi, by simpa using hip⟩
    simp [insertInvoice, hp, hany]
  · intro hall
    match hinv : inv.payment with
    | some p =>
        have hany : store.any (fun i => decide (i.payment = some p)) = false := by
          rw [List.any_eq_false]
          intro i hi
          simpa using hall i hi p hinv
        refine ⟨by simp [insertInvoice, hinv, hany], ?_⟩
        refine List.pairwise_cons.mpr ⟨fun i hi q hq => ?_, h⟩
        exact hall i hi q hq
    | none =>
        refine ⟨by simp [insertInvoice, hinv], ?_⟩
        refine List.pairwise_cons.mpr ⟨fun i hi q hq => ?_, h⟩
        rw [hinv] at hq
        cases hq

/-- Witness for claim C9: with an invoice for payment row 1 stored, a second
invoice for payment row 1 is rejected with DuplicateError and an invoice for
payment row 2 is accepted. -/
theorem insertInvoice_one_to_one_witness :
    insertInvoice [invP1] invP1b = Except.error PlatformError.DuplicateError ∧
    insertInvoice [invP1] invP2 = Except.ok [invP2, invP1] := by
  constructor
  · exact (insertInvoice_one_to_one [invP1] invP1b
      (by simp [paymentLinkUnique])).1 1 rfl ⟨invP1, by simp, rfl⟩
  · exact ((insertInvoice_one_to_one [invP1] invP2
      (by simp [paymentLinkUnique])).2
      (by
        intro i hi p hp
        simp at hi
        subst hi
        have : p = 2 := by
          have := hp
          simp [invP2, generateInvoice] at this
          omega
        subst this
        simp [invP1, generateInvoice])).1

/-- One application attempt never changes the usage cap of a coupon. -/
theorem applyCouponKeep_usage_limit (c : Coupon) (amount : Rat) (now : Nat) :
    (applyCouponKeep c amount now).usage_limit = c.usage_limit := by
  by_cases h1 : couponExpired c now = true
  · simp [applyCouponKeep, applyCoupon, h1]
  · by_cases h2 : limitReached c = true
    · simp [applyCouponKeep, applyCoupon, h1, h2]
    · simp [applyCouponKeep, applyCoupon, h1, h2]

/-- One application attempt keeps times_redeemed within a set usage cap. -/
theorem applyCouponKeep_le (c : Coupon) (amount : Rat) (now : Nat) (l : Nat)
    (hl : c.usage_limit = some l) (h : c.times_redeemed ≤ l) :
    (applyCouponKeep c amount now).times_redeemed ≤ l := by
  by_cases h1 : couponExpired c now = true
  · simpa [applyCouponKeep, applyCoupon, h1] using h
  · by_cases h2 : limitReached c = true
    · simpa [applyCouponKeep, applyCoupon, h1, h2] using h
    · have hlt : c.times_redeemed < l := by
        unfold limitReached at h2
        rw [hl] at h2
        simp at h2
        omega
      simp [applyCouponKeep, applyCoupon, h1, h2]
      omega

/-- A whole sequence of application attempts keeps times_redeemed within a
set usage cap. -/
theorem applySequence_le (apps : List (Rat × Nat)) (c : Coupon) (l : Nat)
    (hl : c.usage_limit = some l) (h : c.times_redeemed ≤ l) :
    (applySequence c apps).times_redeemed ≤ l := by
  induction apps generalizing c with
  | nil => simpa [applySequence] using h
  | cons p rest ih =>
      have hl2 : (applyCouponKeep c p.1 p.2).usage_limit = some l := by
        rw [applyCouponKeep_usage_limit]
        exact hl
      have h2 := applyCouponKeep_le c p.1 p.2 l hl h
      simpa [applySequence] using ih (applyCouponKeep c p.1 p.2) hl2 h2

/-- Counterexample to claim C4 as stated: a coupon that is both expired and
at its usage cap is rejected with ExpiredError, not LimitExceededError,
because the expiry check precedes the limit check. -/
theorem applyCoupon_expired_at_limit_counterexample :
    expiredAtLimitCoupon.usage_limit = some 5 ∧
    expiredAtLimitCoupon.times_redeemed = 5 ∧
    applyCoupon expiredAtLimitCoupon 10 1 =
      Except.error PlatformError.ExpiredError ∧
    applyCoupon expiredAtLimitCoupon 10 1 ≠
      Except.error PlatformError.LimitExceededError := by
  refine ⟨rfl, rfl, rfl, ?_⟩
  intro hcontra
  have : PlatformError.ExpiredError = PlatformError.LimitExceededError := by
    have h1 : applyCoupon expiredAtLimitCoupon 10 1 =
        Except.error PlatformError.ExpiredError := rfl
    rw [h1] at hcontra
    exact (Except.error.injEq _ _).mp hcontra
  cases this

/-- Claim C4 (amended): with a set usage cap, times_redeemed never exceeds
the cap after any sequence of applications; applying a non-expired coupon
whose times_redeemed has reached the cap fails with LimitExceededError; any
rejected application leaves the coupon unchanged; a successful application
increments times_redeemed by exactly one. -/
theorem applyCoupon_limit_spec (c : Coupon) (amount : Rat) (now : Nat)
    (l : Nat) (apps : List (Rat × Nat)) (hl : c.usage_limit = some l) :
    (couponExpired c now = false → l ≤ c.times_redeemed →
      applyCoupon c amount now = Except.error PlatformError.LimitExceededError) ∧
    (∀ e, applyCoupon c amount now = Except.error e →
      applyCouponKeep c amount now = c) ∧
    (∀ c2 d, applyCoupon c amount now = Except.ok (c2, d) →
      c2.times_redeemed = c.times_redeemed + 1) ∧
    (c.times_redeemed ≤ l → (applySequence c apps).times_redeemed ≤ l) := by
  refine ⟨?_, ?_, ?_, fun hle => applySequence_le apps c l hl hle⟩
  · intro hexp hge
    have hlim : limitReached c = true := by
      unfold limitReached
      rw [hl]
      simpa using hge
    simp [applyCoupon, hexp, hlim]
  · intro e he
    simp [applyCouponKeep, he]
  · intro c2 d hok
    by_cases h1 : couponExpired c now = true
    · simp [applyCoupon, h1] at hok
    · by_cases h2 : limitReached c = true
      · simp [applyCoupon, h1, h2] at hok
      · simp [applyCoupon, h1, h2] at hok
        rw [← hok.1]

/-- Witness for claim C4 (amended): the scenario coupon with usage_limit 5
and times_redeemed 5 is rejected with LimitExceededError, and a fresh coupon
with usage_limit 5 stays within its cap over a two-application sequence. -/
theorem applyCoupon_limit_spec_witness :
    applyCoupon atLimitCoupon 10 0 =
      Except.error PlatformError.LimitExceededError ∧
    (applySequence freshCoupon [(10, 0), (20, 0)]).times_redeemed ≤ 5 :=
  ⟨(applyCoupon_limit_spec atLimitCoupon 10 0 5 [] rfl).1 rfl (by decide),
   (applyCoupon_limit_spec freshCoupon 10 0 5 [(10, 0), (20, 0)] rfl).2.2.2
     (by decide)⟩

/-- Claim C5: dispatching a pending Payout increments attempts and a failure
records last_error; once attempts has reached the platform retry_attempts, a
further failure sets status failed rather than leaving it pending, a failure
below the cap leaves it pending for retry, and a failed Payout is terminal
(never dispatched again). -/
theorem dispatchPayout_terminal_failure
    (settings : PlatformSettings) (p : Payout) (e : String)
    (o : DispatchOutcome) (hp : p.status = PayoutStatus.pending) :
    (settings.retry_attempts ≤ p.attempts →
      (dispatchPayout settings p (DispatchOutcome.failure e)).status =
        PayoutStatus.failed) ∧
    (p.attempts < settings.retry_attempts →
      (dispatchPayout settings p (DispatchOutcome.failure e)).status =
        PayoutStatus.pending) ∧
    (dispatchPayout settings p o).attempts = p.attempts + 1 ∧
    (dispatchPayout settings p (DispatchOutcome.failure e)).last_error = e ∧
    (∀ q : Payout, q.status = PayoutStatus.failed →
      ∀ o2 : DispatchOutcome, dispatchPayout settings q o2 = q) := by
  refine ⟨?_, ?_, ?_, ?_, ?_⟩
  · intro hge
    simp [dispatchPayout, hp, hge]
  · intro hlt
    have hnge : ¬settings.retry_attempts ≤ p.attempts := by omega
    simp [dispatchPayout, hp, hnge]
  · cases o with
    | success now byUser => simp [dispatchPayout, hp]
    | failure err =>
        by_cases hge : settings.retry_attempts ≤ p.attempts
        · simp [dispatchPayout, hp, hge]
        · simp [dispatchPayout, hp, hge]
  · by_cases hge : settings.retry_attempts ≤ p.attempts
    · simp [dispatchPayout, hp, hge]
    · simp [dispatchPayout, hp, hge]
  · intro q hq o2
    have hne : ¬q.status = PayoutStatus.pending := by
      rw [hq]
      intro hcontra
      cases hcontra
    simp [dispatchPayout, hne]

/-- Witness for claim C5: the scenario payout with attempts 3 under platform
retry_attempts 3, upon another failure, transitions to status failed with
attempts 4 and the error recorded. -/
theorem dispatchPayout_terminal_failure_witness :
    (dispatchPayout settingsEx payoutEx
      (DispatchOutcome.failure "transfer declined")).status =
        PayoutStatus.failed ∧
    (dispatchPayout settingsEx payoutEx
      (DispatchOutcome.failure "transfer declined")).attempts =
        payoutEx.attempts + 1 ∧
    (dispatchPayout settingsEx payoutEx
      (DispatchOutcome.failure "transfer declined")).last_error =
        "transfer declined" :=
  ⟨(dispatchPayout_terminal_failure settingsEx payoutEx "transfer declined"
      (DispatchOutcome.failure "transfer declined") rfl).1 (by decide),
   (dispatchPayout_terminal_failure settingsEx payoutEx "transfer declined"
      (DispatchOutcome.failure "transfer declined") rfl).2.2.1,
   (dispatchPayout_terminal_failure settingsEx payoutEx "transfer declined"
      (DispatchOutcome.failure "transfer declined") rfl).2.2.2.1⟩

/-- The period-ordering invariant depends only on the two period fields. -/
theorem periodOrdered_of_fields (s1 s2 : Subscription)
    (h1 : s2.current_period_start = s1.current_period_start)
    (h2 : s2.current_period_end = s1.current_period_end)
    (h : periodOrdered s1) : periodOrdered s2 := by
  unfold periodOrdered at h ⊢
  rw [h1, h2]
  exact h

/-- Claim C8: a newly created Subscription satisfies
current_period_start ≤ current_period_end whenever both are present, and
every lifecycle operation (pause, resume, cancel, expire, and the period
update of a renewal) preserves the ordering. -/
theorem subscription_period_ordered
    (subscriber plan now now2 ps pe : Nat) (s : Subscription)
    (h : periodOrdered s) :
    periodOrdered (mkSubscription subscriber plan now) ∧
    (∀ s2, pauseSubscription s now2 = Except.ok s2 → periodOrdered s2) ∧
    (∀ s2, resumeSubscription s now2 = Except.ok s2 → periodOrdered s2) ∧
    (∀ b, periodOrdered (cancelSubscription s b now2)) ∧
    (∀ s2, expireSubscription s now2 = Except.ok s2 → periodOrdered s2) ∧
    (∀ s2, setCurrentPeriod s ps pe = Except.ok s2 → periodOrdered s2) := by
  refine ⟨?_, ?_, ?_, ?_, ?_, ?_⟩
  · simp [periodOrdered, mkSubscription]
  · intro s2 hs2
    by_cases hc : s.status = SubscriptionStatus.active
    · simp [pauseSubscription, hc] at hs2
      exact periodOrdered_of_fields s s2 (by rw [← hs2]) (by rw [← hs2]) h
    · simp [pauseSubscription, hc] at hs2
  · intro s2 hs2
    by_cases hc : s.status = SubscriptionStatus.paused
    · simp [resumeSubscription, hc] at hs2
      exact periodOrdered_of_fields s s2 (by rw [← hs2]) (by rw [← hs2]) h
    · simp [resumeSubscription, hc] at hs2
  · intro b
    cases b with
    | true => exact periodOrdered_of_fields s _ rfl rfl h
    | false => exact periodOrdered_of_fields s _ rfl rfl h
  · intro s2 hs2
    by_cases hc : (!s.auto_renew && periodEnded s now2) = true
    · simp [expireSubscription, hc] at hs2
      exact periodOrdered_of_fields s s2 (by rw [← hs2]) (by rw [← hs2]) h
    · simp [expireSubscription, hc] at hs2
  · intro s2 hs2
    by_cases hc : ps ≤ pe
    · simp [setCurrentPeriod, hc] at hs2
      rw [← hs2]
      unfold periodOrdered
      simpa using hc
    · simp [setCurrentPeriod, hc] at hs2

/-- Witness for claim C8: concrete checks on the subscription for
(subscriber 42, plan 7): creation satisfies the ordering, and cancel and a
renewal period update preserve it. -/
theorem subscription_period_ordered_witness :
    periodOrdered (mkSubscription 42 7 0) ∧
    periodOrdered (cancelSubscription (mkSubscription 42 7 0) true 3) ∧
    (∀ s2, setCurrentPeriod (mkSubscription 42 7 0) 10 40 = Except.ok s2 →
      periodOrdered s2) :=
  ⟨(subscription_period_ordered 42 7 0 3 10 40 (mkSubscription 42 7 0)
      (by simp [periodOrdered, mkSubscription])).1,
   (subscription_period_ordered 42 7 0 3 10 40 (mkSubscription 42 7 0)
      (by simp [periodOrdered, mkSubscription])).2.2.2.1 true,
   (subscription_period_ordered 42 7 0 3 10 40 (mkSubscription 42 7 0)
      (by simp [periodOrdered, mkSubscription])).2.2.2.2.2⟩

/-- Saving an Organization assigns slugify(name) to a blank slug, leaves a
non-blank slug unchanged, and is idempotent. -/
theorem organization_save_slug (slugify : String → String) (o : Organization) :
    (o.slug = "" → (Organization.save slugify o).slug = slugify o.name) ∧
    (o.slug ≠ "" → Organization.save slugify o = o) ∧
    Organization.save slugify (Organization.save slugify o) =
      Organization.save slugify o := by
  refine ⟨?_, ?_, ?_⟩
  · intro h
    simp [Organization.save, h]
  · intro h
    simp [Organization.save, h]
  · by_cases h : o.slug = ""
    · by_cases h2 : slugify o.name = "" <;>
        simp [Organization.save, h, h2]
    · simp [Organization.save, h]

/-- Saving a ServicePlan assigns slugify(name) to a blank slug, leaves a
non-blank slug unchanged, and is idempotent. -/
theorem servicePlan_save_slug (slugify : String → String) (p : ServicePlan) :
    (p.slug = "" → (ServicePlan.save slugify p).slug = slugify p.name) ∧
    (p.slug ≠ "" → ServicePlan.save slugify p = p) ∧
    ServicePlan.save slugify (ServicePlan.save slugify p) =
      ServicePlan.save slugify p := by
  refine ⟨?_, ?_, ?_⟩
  · intro h
    simp [ServicePlan.save, h]
  · intro h
    simp [ServicePlan.save, h]
  · by_cases h : p.slug = ""
    · by_cases h2 : slugify p.name = "" <;>
        simp [ServicePlan.save, h, h2]
    · simp [ServicePlan.save, h]

/-- Saving an Event assigns slugify(name) to a blank slug, leaves a
non-blank slug unchanged, and is idempotent. -/
theorem event_save_slug (slugify : String → String) (e : Event) :
    (e.slug = "" → (Event.save slugify e).slug = slugify e.name) ∧
    (e.slug ≠ "" → Event.save slugify e = e) ∧
    Event.save slugify (Event.save slugify e) = Event.save slugify e := by
  refine ⟨?_, ?_, ?_⟩
  · intro h
    simp [Event.save, h]
  · intro h
    simp [Event.save, h]
  · by_cases h : e.slug = ""
    · by_cases h2 : slugify e.name = "" <;>
        simp [Event.save, h, h2]
    · simp [Event.save, h]

/-- Saving a Bundle assigns slugify(name) to a blank slug, leaves a
non-blank slug unchanged, and is idempotent. -/
theorem bundle_save_slug (slugify : String → String) (b : Bundle) :
    (b.slug = "" → (Bundle.save slugify b).slug = slugify b.name) ∧
    (b.slug ≠ "" → Bundle.save slugify b = b) ∧
    Bundle.save slugify (Bundle.save slugify b) = Bundle.save slugify b := by
  refine ⟨?_, ?_, ?_⟩
  · intro h
    simp [Bundle.save, h]
  · intro h
    simp [Bundle.save, h]
  · by_cases h : b.slug = ""
    · by_cases h2 : slugify b.name = "" <;>
        simp [Bundle.save, h, h2]
    · simp [Bundle.save, h]

/-- Claim C10: for Organization, ServicePlan, Event and Bundle, saving a
record with a blank slug assigns slugify(name) before persisting, saving a
record with a non-blank slug leaves it unchanged, and saving twice yields
the same result as saving once. -/
theorem save_slug_assignment_idempotent (slugify : String → String)
    (o : Organization) (p : ServicePlan) (e : Event) (b : Bundle) :
    ((o.slug = "" → (Organization.save slugify o).slug = slugify o.name) ∧
     (o.slug ≠ "" → Organization.save slugify o = o) ∧
     Organization.save slugify (Organization.save slugify o) =
       Organization.save slugify o) ∧
    ((p.slug = "" → (ServicePlan.save slugify p).slug = slugify p.name) ∧
     (p.slug ≠ "" → ServicePlan.save slugify p = p) ∧
     ServicePlan.save slugify (ServicePlan.save slugify p) =
       ServicePlan.save slugify p) ∧
    ((e.slug = "" → (Event.save slugify e).slug = slugify e.name) ∧
     (e.slug ≠ "" → Event.save slugify e = e) ∧
     Event.save slugify (Event.save slugify e) = Event.save slugify e) ∧
    ((b.slug = "" → (Bundle.save slugify b).slug = slugify b.name) ∧
     (b.slug ≠ "" → Bundle.save slugify b = b) ∧
     Bundle.save slugify (Bundle.save slugify b) = Bundle.save slugify b) :=
  ⟨organization_save_slug slugify o, servicePlan_save_slug slugify p,
   event_save_slug slugify e, bundle_save_slug slugify b⟩

/-- Witness for claim C10: with slugify instantiated as String.toLower, each
of the four entities gets the slugified name when saved blank, keeps an
existing slug when saved non-blank, and double-saving an initially blank
Organization equals single-saving it. -/
theorem save_slug_assignment_idempotent_witness :
    (Organization.save String.toLower (mkOrganization "Acme" "")).slug =
      String.toLower (mkOrganization "Acme" "").name ∧
    Organization.save String.toLower (mkOrganization "Acme" "kept") =
      mkOrganization "Acme" "kept" ∧
    (ServicePlan.save String.toLower (mkServicePlan "Gold" "")).slug =
      String.toLower (mkServicePlan "Gold" "").name ∧
    ServicePlan.save String.toLower (mkServicePlan "Gold" "kept") =
      mkServicePlan "Gold" "kept" ∧
    (Event.save String.toLower (mkEvent "Gala" "")).slug =
      String.toLower (mkEvent "Gala" "").name ∧
    Event.save String.toLower (mkEvent "Gala" "kept") = mkEvent "Gala" "kept" ∧
    (Bundle.save String.toLower (mkBundle "Duo" "")).slug =
      String.toLower (mkBundle "Duo" "").name ∧
    Bundle.save String.toLower (mkBundle "Duo" "kept") = mkBundle "Duo" "kept" ∧
    Organization.save String.toLower
        (Organization.save String.toLower (mkOrganization "Acme" "")) =
      Organization.save String.toLower (mkOrganization "Acme" "") := by
  refine ⟨?_, ?_, ?_, ?_, ?_, ?_, ?_, ?_, ?_⟩
  · exact (save_slug_assignment_idempotent String.toLower
      (mkOrganization "Acme" "") (mkServicePlan "Gold" "") (mkEvent "Gala" "")
      (mkBundle "Duo" "")).1.1 rfl
  · exact (save_slug_assignment_idempotent String.toLower
      (mkOrganization "Acme" "kept") (mkServicePlan "Gold" "")
      (mkEvent "Gala" "") (mkBundle "Duo" "")).1.2.1 (by decide)
  · exact (save_slug_assignment_idempotent String.toLower
      (mkOrganization "Acme" "") (mkServicePlan "Gold" "") (mkEvent "Gala" "")
      (mkBundle "Duo" "")).2.1.1 rfl
  · exact (save_slug_assignment_idempotent String.toLower
      (mkOrganization "Acme" "") (mkServicePlan "Gold" "kept")
      (mkEvent "Gala" "") (mkBundle "Duo" "")).2.1.2.1 (by decide)
  · exact (save_slug_assignment_idempotent String.toLower
      (mkOrganization "Acme" "") (mkServicePlan "Gold" "") (mkEvent "Gala" "")
      (mkBundle "Duo" "")).2.2.1.1 rfl
  · exact (save_slug_assignment_idempotent String.toLower
      (mkOrganization "Acme" "") (mkServicePlan "Gold" "")
      (mkEvent "Gala" "kept") (mkBundle "Duo" "")).2.2.1.2.1 (by decide)
  · exact (save_slug_assignment_idempotent String.toLower
      (mkOrganization "Acme" "") (mkServicePlan "Gold" "") (mkEvent "Gala" "")
      (mkBundle "Duo" "")).2.2.2.1 rfl
  · exact (save_slug_assignment_idempotent String.toLower
      (mkOrganization "Acme" "") (mkServicePlan "Gold" "") (mkEvent "Gala" "")
      (mkBundle "Duo" "kept")).2.2.2.2.1 (by decide)
  · exact (save_slug_assignment_idempotent String.toLower
      (mkOrganization "Acme" "") (mkServicePlan "Gold" "") (mkEvent "Gala" "")
      (mkBundle "Duo" "")).1.2.2

end SMA
